import Mathlib

/-!
Verification of the STT evaluation pipeline (transcribe.py, utils.py,
models/*.py) against its natural-language specification.

The embedding models the Python source shallowly:
* dictionaries returned by the engines become the `TResult` structure, a
  field of type `Option _` meaning "this key is present in the dict";
* `try/except` bodies become `Except String _` computations; the engines'
  outermost `except Exception` handler becomes a `match` converting a
  thrown value into the `{'text': '', 'error': str(e)}` result;
* external calls (S3, HTTP, local models) are oracles: structures listing
  the outcome of each call the code makes, each `Except String _` so that
  the oracle can make any call raise;
* the `jiwer` metric functions are modelled by an executable word/char
  Levenshtein distance; `jiwer` raises on an empty reference, modelled by
  `Except Unit _`.
-/

/-- Python truthiness of an optional string (`if ground_truth:`,
`if self.api_key:`): `None` and `""` are falsy. -/
def truthyStr : Option String → Bool
  | none => false
  | some s => !s.isEmpty

/-- The word list `jiwer` scores against: split on spaces, drop empty
tokens (jiwer's `ReduceToListOfListOfWords`). -/
def wordsOf (s : String) : List String :=
  (s.split (· == ' ')).filter (fun w => !w.isEmpty)

/-- One row of the Levenshtein dynamic program.  `levRow x ys prev left`
extends the row for the prefix ending before `x` (`prev`, aligned so its
head is the diagonal entry) into the row for the prefix including `x`,
`left` being the entry just computed to the left. -/
def levRow {α : Type} [DecidableEq α] (x : α) : List α → List ℕ → ℕ → List ℕ
  | y :: ys, p0 :: rest, left =>
    let up := rest.headD 0
    let cur := min (left + 1) (min (up + 1) (p0 + (if x = y then 0 else 1)))
    cur :: levRow x ys rest cur
  | _, _, _ => []

/-- Levenshtein edit distance between two lists (insertions, deletions,
substitutions all of cost 1), computed row by row. -/
def levDist {α : Type} [DecidableEq α] (xs ys : List α) : ℕ :=
  let row0 := List.range (ys.length + 1)
  let final := xs.foldl
    (fun prev x =>
      let left := prev.headD 0 + 1
      left :: levRow x ys prev left)
    row0
  final.getLastD 0

/-- Model of `jiwer.wer reference hypothesis`: word-level edit distance
over the reference word count.  `jiwer` raises `ValueError` when the
reference has no words, modelled as `Except.error ()`. -/
def jiwerWer (reference hypothesis : String) : Except Unit ℚ :=
  let r := wordsOf reference
  let h := wordsOf hypothesis
  if r.isEmpty then .error ()
  else .ok ((levDist r h : ℚ) / (r.length : ℚ))

/-- Model of `jiwer.cer reference hypothesis`: character-level edit
distance over the reference character count (references are stripped
first); raises on an empty reference. -/
def jiwerCer (reference hypothesis : String) : Except Unit ℚ :=
  let r := reference.trim.toList
  let h := hypothesis.trim.toList
  if r.isEmpty then .error ()
  else .ok ((levDist r h : ℚ) / (r.length : ℚ))

/-- A word-level entry of the `chunks` list the engines build. -/
structure Chunk where
  word : String
  start_time : ℚ
  end_time : ℚ
  confidence : Option ℚ := none
  deriving DecidableEq, Repr

/-- The result dictionary an engine's `transcribe` returns, later mutated
by `save_result`.  Each `Option` field models presence of the key of the
same name in the Python dict. -/
structure TResult where
  text : Option String := none
  raw_text : Option String := none
  chunks : Option (List Chunk) := none
  confidence : Option ℚ := none
  error : Option String := none
  job_id : Option String := none
  job_name : Option String := none
  ground_truth : Option String := none
  wer : Option ℚ := none
  cer : Option ℚ := none
  deriving DecidableEq, Repr

/-- One row of `results.csv` as written by `save_result`.  `wer`/`cer`
are `none` when the dict has no such key (the CSV cell is then empty);
the `confidence` column exists only when the result has the key. -/
structure CsvRow where
  file_id : String
  ground_truth : String
  hypothesis : String
  wer : Option ℚ := none
  cer : Option ℚ := none
  confidence : Option ℚ := none
  deriving DecidableEq, Repr

/-- `utils.save_result output_dir file_id result ground_truth`: when the
ground truth is truthy and the result has a `text` key, computes WER/CER
(which can raise, via `jiwer`, when the ground truth has no words) and
adds `ground_truth`/`wer`/`cer` to the dict; then writes the dict as the
per-item JSON record and appends one CSV row.  The returned pair is
(JSON record, CSV row); `Except.error` models an escaping exception, in
which case nothing is written. -/
def save_result (file_id : String) (result : TResult) (ground_truth : Option String) :
    Except Unit (TResult × CsvRow) := do
  let result ←
    if truthyStr ground_truth ∧ result.text.isSome then do
      let gt := ground_truth.getD ""
      let hyp := (result.text.getD "").toLower
      let w ← jiwerWer gt.toLower hyp
      let c ← jiwerCer gt.toLower hyp
      pure { result with ground_truth := ground_truth, wer := some w, cer := some c }
    else
      pure result
  let row : CsvRow :=
    { file_id := file_id
      ground_truth := if truthyStr ground_truth then ground_truth.getD "" else ""
      hypothesis := result.text.getD ""
      wer := result.wer
      cer := result.cer
      confidence := if result.confidence.isSome then result.confidence else none }
  pure (result, row)

/-- One audio item of a dataset run, together with the outcome of the
external operations `process_dataset` performs on it: the transcript
dictionary lookup (`none` = no ground truth, the item is skipped), the
S3 download plus duration probe (`Except.error` = exception caught by
the per-item handler), and the engine's `transcribe` result (engines
never raise, see the engine models below). -/
structure ItemSpec where
  fileId : String
  gt : Option String
  fetch : Except Unit ℚ
  tresult : TResult
  deriving Repr

/-- What the run did to one item: whether `model.transcribe` was called,
the JSON record written, the CSV row appended, and the `(wer, cer)` pair
appended to the in-memory `results` list for aggregation. -/
structure ItemRec where
  transcribed : Bool := false
  json : Option TResult := none
  csv : Option CsvRow := none
  metric : Option (ℚ × ℚ) := none
  deriving DecidableEq, Repr

/-- The effective duration an item adds to `total_duration`: its probed
duration when it has a ground truth and its download/probe succeeded,
`0` otherwise (skipped or failed items add nothing). -/
def effDuration (it : ItemSpec) : ℚ :=
  match it.gt, it.fetch with
  | some _, .ok d => d
  | _, _ => 0

/-- The per-item loop of `transcribe.process_dataset`: returns one
`ItemRec` per input item (positionally aligned) and the final
`total_duration`.  Mirrors the source order: budget check (`break`),
ground-truth check (`continue`), download + duration accumulation,
`model.transcribe`, `save_result`, and the `'wer' in result and 'cer' in
result` filter feeding the metrics list; the per-item `except` swallows
`save_result` failures after the item was already transcribed. -/
def runItems (budget : ℚ) : ℚ → List ItemSpec → List ItemRec × ℚ
  | acc, [] => ([], acc)
  | acc, it :: rest =>
    if budget ≤ acc then
      (List.replicate (rest.length + 1) {}, acc)
    else
      match it.gt with
      | none =>
        let (rs, tot) := runItems budget acc rest
        ({} :: rs, tot)
      | some gt =>
        match it.fetch with
        | .error _ =>
          let (rs, tot) := runItems budget acc rest
          ({} :: rs, tot)
        | .ok d =>
          let acc' := acc + d
          match save_result it.fileId it.tresult (some gt) with
          | .error _ =>
            let (rs, tot) := runItems budget acc' rest
            ({ transcribed := true } :: rs, tot)
          | .ok (js, row) =>
            let rec1 : ItemRec :=
              { transcribed := true
                json := some js
                csv := some row
                metric :=
                  match js.wer, js.cer with
                  | some w, some c => some (w, c)
                  | _, _ => none }
            let (rs, tot) := runItems budget acc' rest
            (rec1 :: rs, tot)

/-- `utils.calculate_metrics`: `(avg_wer, avg_cer, num_files)` over the
accumulated `(wer, cer)` list; an empty list yields zeros. -/
def calculate_metrics (results : List (ℚ × ℚ)) : ℚ × ℚ × ℕ :=
  if results.isEmpty then (0, 0, 0)
  else
    ((results.map Prod.fst).sum / (results.length : ℚ),
     (results.map Prod.snd).sum / (results.length : ℚ),
     results.length)

/-- The per-dataset summary `process_dataset` serialises to
`metrics.json`. -/
structure DatasetSummary where
  num_files : ℕ
  total_duration : ℚ
  avg_wer : ℚ
  avg_cer : ℚ
  deriving DecidableEq, Repr

/-- `transcribe.process_dataset` restricted to its per-item loop and
aggregation: run the items, aggregate the metric pairs, and build the
summary. -/
def process_dataset (budget : ℚ) (items : List ItemSpec) : DatasetSummary × List ItemRec :=
  let (recs, tot) := runItems budget 0 items
  let results := recs.filterMap (·.metric)
  let m := calculate_metrics results
  ({ num_files := m.2.2, total_duration := tot, avg_wer := m.1, avg_cer := m.2.1 }, recs)

/-! ## Dolphin engine (models/dolphin_model.py) -/

/-- Split a character list at the first `'>'`: `firstGtSplit cs = some (before, after)`
with `cs = before ++ '>' :: after` and no `'>'` in `before`; `none` when
`cs` has no `'>'`. -/
def firstGtSplit : List Char → Option (List Char × List Char)
  | [] => none
  | c :: rest =>
    if c = '>' then some ([], rest)
    else (firstGtSplit rest).map (fun p => (c :: p.1, p.2))

/-- Fuel-driven scan modelling `re.sub(r'<[^>]+>', '', text)`: at each
`'<'`, if the first following `'>'` has at least one character before it,
the whole `<...>` match is dropped and scanning resumes after the `'>'`
(leftmost, non-overlapping `re.sub` semantics); otherwise the `'<'` is
kept.  `fuel ≥ cs.length` always suffices. -/
def removeTagsAux : ℕ → List Char → List Char
  | 0, cs => cs
  | _ + 1, [] => []
  | fuel + 1, c :: rest =>
    if c = '<' then
      match firstGtSplit rest with
      | some ([], _) => c :: removeTagsAux fuel rest
      | some (_ :: _, after) => removeTagsAux fuel after
      | none => c :: removeTagsAux fuel rest
    else
      c :: removeTagsAux fuel rest

/-- `re.sub(r'<[^>]+>', '', text)` on a string. -/
def removeTags (s : String) : String :=
  String.mk (removeTagsAux s.length s.data)

/-- `DolphinModel.clean_hypothesis_text`: remove all `<...>` tags, then
strip surrounding whitespace (Python `str.strip()`, modelled by
`String.trim`). -/
def clean_hypothesis_text (text : String) : String :=
  (removeTags text).trim

/-- Does a character list contain a substring matching `<[^>]+>`?  This
holds at a position exactly when it holds `'<'` and the first following
`'>'` is at distance at least two. -/
def hasTag : List Char → Bool
  | [] => false
  | c :: rest =>
    (c = '<' &&
      match firstGtSplit rest with
      | some (b, _) => !b.isEmpty
      | none => false) ||
    hasTag rest

/-- Oracle for one `DolphinModel.transcribe` call: the combined outcome of
`dolphin.load_audio` and running the model (`Except.error` = an exception
anywhere in the `try` body, `Except.ok` = the raw `result.text`). -/
structure DolphinOracle where
  run : Except String String

/-- `DolphinModel.transcribe`: lower-case the model's raw text, store it
as `raw_text`, store the tag-stripped text as `text`; any exception is
converted to `{'text': '', 'error': str(e)}`. -/
def dolphinTranscribe (o : DolphinOracle) : TResult :=
  match o.run with
  | .error e => { text := some "", error := some e }
  | .ok rawOut =>
    let hypothesis := rawOut.toLower
    let raw_hypothesis := hypothesis
    { raw_text := some raw_hypothesis
      text := some (clean_hypothesis_text hypothesis) }

/-! ## Whisper engine (models/whisper_model.py) -/

/-- One entry of the HuggingFace pipeline's `chunks` list: the dict may
lack `text` or `timestamp` (`chunk.get(..., default)` in the source). -/
structure WhisperChunkIn where
  text : Option String := none
  timestamp : Option (ℚ × ℚ) := none

/-- What the HuggingFace ASR pipeline call returns: a dict with optional
`text` and `chunks` keys. -/
structure WhisperPipeOut where
  text : Option String := none
  chunks : Option (List WhisperChunkIn) := none

/-- Oracle for one `WhisperModel.transcribe` call: the outcome of
`self.pipe(audio_path)`. -/
structure WhisperOracle where
  pipeResult : Except String WhisperPipeOut

/-- `WhisperModel.transcribe`: run the pipeline, take `result.get('text', '')`
and reformat the word chunks; any exception becomes
`{'text': '', 'error': str(e)}`. -/
def whisperTranscribe (o : WhisperOracle) : TResult :=
  match o.pipeResult with
  | .error e => { text := some "", error := some e }
  | .ok r =>
    let chunks :=
      match r.chunks with
      | none => []
      | some cs =>
        cs.map (fun c =>
          { word := c.text.getD ""
            start_time := (c.timestamp.getD (0, 0)).1
            end_time := (c.timestamp.getD (0, 0)).2 : Chunk })
    { text := some (r.text.getD ""), chunks := some chunks }

/-! ## Credential resolution (models/salad_model.py line 12,
models/deepgram_model.py line 12, models/google_model.py line 14) -/

/-- `os.environ.get(key, default)`: the environment value when the
variable is set (even set to the empty string), otherwise the default. -/
def os_environ_get (env : List (String × String)) (key : String)
    (default : Option String) : Option String :=
  match env.lookup key with
  | some v => some v
  | none => default

/-- `SaladModel.__init__`: `self.api_key = os.environ.get('SALAD_API_KEY',
config.get('api_key'))`. -/
def saladApiKey (env : List (String × String)) (config_api_key : Option String) :
    Option String :=
  os_environ_get env "SALAD_API_KEY" config_api_key

/-- `DeepgramModel.__init__`: `self.api_key = os.environ.get('DEEPGRAM_API_KEY',
config.get('api_key'))`. -/
def deepgramApiKey (env : List (String × String)) (config_api_key : Option String) :
    Option String :=
  os_environ_get env "DEEPGRAM_API_KEY" config_api_key

/-- `GoogleModel.__init__`: `self.api_key = os.environ.get('GOOGLE_API_KEY',
config.get('api_key'))`. -/
def googleApiKey (env : List (String × String)) (config_api_key : Option String) :
    Option String :=
  os_environ_get env "GOOGLE_API_KEY" config_api_key

/-! ## Engine load() methods (C4) -/

/-- `SaladModel.load`: raises `ValueError` when `self.api_key` is falsy,
otherwise just prints. -/
def saladLoad (api_key : Option String) : Except String Unit :=
  if !truthyStr api_key then
    .error "Salad API key is required. Set it in config or SALAD_API_KEY environment variable."
  else
    .ok ()

/-- `DeepgramModel.load`: raises `ValueError` when `self.api_key` is
falsy, otherwise constructs the client. -/
def deepgramLoad (api_key : Option String) : Except String Unit :=
  if !truthyStr api_key then
    .error "Deepgram API key is required. Set it in config or DEEPGRAM_API_KEY environment variable."
  else
    .ok ()

/-- `GoogleModel.load`: never raises; it only chooses which message to
print (the warning when both the api key and gcloud auth are missing).
The returned string is the printed message. -/
def googleLoad (api_key : Option String) (gcloud_auth_ok : Bool) : Except String String :=
  if !truthyStr api_key && !gcloud_auth_ok then
    .ok "WARNING: No Google API key provided and gcloud authentication not set up."
  else
    .ok "Google Speech-to-Text initialized successfully."

/-! ## Google engine transcribe (models/google_model.py) -/

/-- One alternative inside a Google STT response result. -/
structure GoogleAlt where
  transcript : String
  confidence : Option ℚ := none
  words : List Chunk := []

/-- One entry of the response's `results` list. -/
structure GoogleEntry where
  alternatives : List GoogleAlt := []

/-- The HTTP response of `requests.post` to the recognize endpoint:
status code, raw body text, and the parsed JSON (`none` models a body
with no `results` key). -/
structure GoogleHttpResp where
  status_code : ℕ
  text : String
  results : Option (List GoogleEntry) := none

/-- Oracle for one `GoogleModel.transcribe` call: the gcloud token
`_get_access_token` would fall back to, the outcome of reading the audio
file, and the outcome of the POST request. -/
structure GoogleOracle where
  gcloud_token : Option String
  fileRead : Except String Unit
  post : Except String GoogleHttpResp

/-- `GoogleModel._get_access_token`: the api key when truthy, otherwise
the gcloud CLI token (or `none`; this helper never raises). -/
def googleGetAccessToken (api_key : Option String) (gcloud_token : Option String) :
    Option String :=
  if truthyStr api_key then api_key else gcloud_token

/-- Transcript extraction from the response: concatenate
`alternatives[0].transcript + " "` over all results, then `strip()`. -/
def googleExtractTranscript (entries : List GoogleEntry) : String :=
  (entries.foldl
    (fun acc e =>
      match e.alternatives.head? with
      | some alt => acc ++ alt.transcript ++ " "
      | none => acc)
    "").trim

/-- Confidence extraction: the first `confidence` seen while the running
value is still `0`. -/
def googleExtractConfidence (entries : List GoogleEntry) : ℚ :=
  entries.foldl
    (fun conf e =>
      match e.alternatives.head? with
      | some alt =>
        match alt.confidence with
        | some c => if conf = 0 then c else conf
        | none => conf
      | none => conf)
    0

/-- `GoogleModel.transcribe`: resolve a token (missing token is an early
error return, not an exception), read the file, POST; non-200 responses
become `{'error': response.text, 'text': ''}`; exceptions anywhere become
`{'text': '', 'error': str(e)}`. -/
def googleTranscribe (api_key : Option String) (o : GoogleOracle) : TResult :=
  let body : Except String TResult := do
    match googleGetAccessToken api_key o.gcloud_token with
    | none => pure { error := some "Failed to get access token", text := some "" }
    | some _tok => do
      let _ ← o.fileRead
      let resp ← o.post
      if resp.status_code ≠ 200 then
        pure { error := some resp.text, text := some "" }
      else
        let entries := resp.results.getD []
        pure
          { text := some (googleExtractTranscript entries)
            confidence := some (googleExtractConfidence entries)
            chunks := some (entries.foldl
              (fun ws e =>
                match e.alternatives.head? with
                | some alt => ws ++ alt.words
                | none => ws)
              []) }
  match body with
  | .ok r => r
  | .error e => { text := some "", error := some e }

/-! ## Deepgram engine (models/deepgram_model.py) -/

/-- The parts of the Deepgram REST response `transcribe` reads:
`results.channels[0].alternatives[0]`'s transcript, word list and
optional confidence.  Missing keys on that path raise inside the `try`,
which the oracle models by making the call itself raise. -/
structure DeepgramResp where
  transcript : String
  words : List Chunk := []
  confidence : Option ℚ := none

/-- Oracle for one `DeepgramModel.transcribe` call: reading the audio
file and the `transcribe_file` REST call (with response-field access
folded into it). -/
structure DeepgramOracle where
  fileRead : Except String Unit
  call : Except String DeepgramResp

/-- `DeepgramModel.transcribe`: one blocking REST call; the success dict
is `{'text', 'chunks', 'confidence'}` with confidence defaulting to `0`;
any exception becomes `{'text': '', 'error': str(e)}`. -/
def deepgramTranscribe (o : DeepgramOracle) : TResult :=
  let body : Except String TResult := do
    let _ ← o.fileRead
    let r ← o.call
    pure
      { text := some r.transcript
        chunks := some r.words
        confidence := some (r.confidence.getD 0) }
  match body with
  | .ok r => r
  | .error e => { text := some "", error := some e }

/-! ## Salad engine (models/salad_model.py) -/

/-- The JSON body of a Salad job-submission response (`'id' in
job_response`). -/
structure SaladJobResp where
  id : Option String := none
  deriving DecidableEq, Repr

/-- The JSON body of a Salad job-status response: optional `status`,
`error`, `text`, and the two word-timing keys `words` /
`word_segments`. -/
structure SaladStatusJson where
  status : Option String := none
  errorMsg : Option String := none
  text : Option String := none
  words : Option (List Chunk) := none
  word_segments : Option (List Chunk) := none
  deriving DecidableEq, Repr

/-- Oracle for one `SaladModel.transcribe` call: the submission outcome
(`Except.error` = `requests.post` raised; `Except.ok none` = non-200
status, `_submit_transcription_job` returns `None`) and the sequence of
poll outcomes, indexed by attempt number (same encoding:
`Except.ok none` = non-200 status check). -/
structure SaladOracle where
  submit : Except String (Option SaladJobResp)
  polls : ℕ → Except String (Option SaladStatusJson)

/-- Outcome of the bounded polling loop in `SaladModel.transcribe`. -/
inductive SaladPollOutcome where
  | completed (js : SaladStatusJson)
  | jobFailed (msg : String)
  | timedOut
  deriving DecidableEq, Repr

/-- The `for retry in range(max_retries)` loop: each iteration makes one
status call; a raised exception propagates, a `None` status response or a
non-terminal status consumes one attempt, `succeeded`/`completed` breaks
with the status JSON, `failed`/`error` is a terminal job failure; when
all attempts are consumed the `for`'s `else` clause reports the timeout. -/
def saladPollLoop (polls : ℕ → Except String (Option SaladStatusJson)) :
    ℕ → ℕ → Except String SaladPollOutcome
  | 0, _ => .ok .timedOut
  | fuel + 1, i =>
    match polls i with
    | .error e => .error e
    | .ok none => saladPollLoop polls fuel (i + 1)
    | .ok (some js) =>
      let status := (js.status.getD "").toLower
      if status = "succeeded" ∨ status = "completed" then
        .ok (.completed js)
      else if status = "failed" ∨ status = "error" then
        .ok (.jobFailed ("Job failed: " ++ (js.errorMsg.getD "Unknown error")))
      else
        saladPollLoop polls fuel (i + 1)

/-- `max_retries = 60  # 5 minutes at 5-second intervals`. -/
def saladMaxRetries : ℕ := 60

/-- `SaladModel.transcribe`: submit the job (failed submission is an
early error-dict return), poll up to `saladMaxRetries` times, then build
the success dict from the last status JSON;
exceptions become `{'text': '', 'error': str(e)}`. -/
def saladTranscribe (o : SaladOracle) : TResult :=
  let body : Except String TResult := do
    let jobResp ← o.submit
    match jobResp with
    | none => pure { text := some "", error := some "Failed to submit transcription job" }
    | some jr =>
      match jr.id with
      | none => pure { text := some "", error := some "Failed to submit transcription job" }
      | some jid =>
        match ← saladPollLoop o.polls saladMaxRetries 0 with
        | .jobFailed msg => pure { text := some "", error := some msg }
        | .timedOut => pure { text := some "", error := some "Job timed out" }
        | .completed js =>
          let words_info :=
            match js.words with
            | some ws => ws
            | none => js.word_segments.getD []
          pure
            { text := some (js.text.getD "")
              chunks := some words_info
              job_id := some jid }
  match body with
  | .ok r => r
  | .error e => { text := some "", error := some e }

/-! ## AWS engine (models/aws_model.py) -/

/-- The parts of the AWS transcript JSON `transcribe` reads: the first
transcript string and the items list (only `type == 'pronunciation'`
entries become word segments). -/
structure AwsWordItem where
  isPronunciation : Bool
  word : String := ""
  start_time : ℚ := 0
  end_time : ℚ := 0
  confidence : ℚ := 0
  deriving DecidableEq, Repr

/-- Parsed transcript output artifact. -/
structure AwsTranscriptJson where
  transcript : String := ""
  items : List AwsWordItem := []
  deriving DecidableEq, Repr

/-- Oracle for one `AWSModel.transcribe` call: the S3 upload, job
submission, successive `get_transcription_job` outcomes (each may raise,
otherwise is the reported `TranscriptionJobStatus`), the `FailureReason`
carried by a `FAILED` status, the transcript download/parse, and whether
each `delete_object` call raises. -/
structure AwsOracle where
  upload : Except String Unit
  startJob : Except String Unit
  polls : List (Except String String)
  failureReason : Option String := none
  download : Except String AwsTranscriptJson
  deleteAudioRaises : Bool := false
  deleteOutputRaises : Bool := false

/-- Which temporary S3 objects exist after the call: `audioUploaded` is
set when this call uploaded the audio to the temp bucket, and the
`Deleted` flags record successful `delete_object` calls. -/
structure AwsS3State where
  audioUploaded : Bool := false
  audioDeleted : Bool := false
  outputDeleted : Bool := false
  deriving DecidableEq, Repr

/-- The `while True:` polling loop of `AWSModel.transcribe`: consume
status responses until one raises or reports `COMPLETED`/`FAILED`.
`none` means every observed response was non-terminal and the loop is
still running — the loop has no attempt bound, so a longer observation
just extends the list. -/
def awsPollLoop : List (Except String String) → Option (Except String String)
  | [] => none
  | .error e :: _ => some (.error e)
  | .ok s :: rest =>
    if s = "COMPLETED" ∨ s = "FAILED" then some (.ok s)
    else awsPollLoop rest

/-- `AWSModel.transcribe audio_path bucket_name audio_key`: upload to a
temporary key when no bucket is given, submit, poll without bound,
download and parse the transcript, run the (condition-inverted) cleanup,
and return the success dict; exceptions become
`{'text': '', 'error': str(e)}`.  The outer `Option` is `none` when the
polling loop never observes a terminal status (the call does not
return); otherwise the returned pair carries the result dict and the
final S3-object state. -/
def awsTranscribe (bucket_name audio_key : Option String) (o : AwsOracle) :
    Option (TResult × AwsS3State) :=
  -- `if not bucket_name:` — falsy bucket name triggers the temporary upload.
  let temp := !truthyStr bucket_name
  let bucket := if temp then some "your-transcribe-temp-bucket" else bucket_name
  let key := if temp then some "temp-uploads/audio" else audio_key
  if temp then
    match o.upload with
    | .error e => some ({ text := some "", error := some e }, {})
    | .ok () => awsAfterUpload bucket key { audioUploaded := true } o
  else
    awsAfterUpload bucket key {} o
where
  /-- Everything after the optional upload: submission, polling,
  download, cleanup, success dict. -/
  awsAfterUpload (bucket key : Option String) (st : AwsS3State) (o : AwsOracle) :
      Option (TResult × AwsS3State) :=
    match o.startJob with
    | .error e => some ({ text := some "", error := some e }, st)
    | .ok () =>
      match awsPollLoop o.polls with
      | none => none
      | some (.error e) => some ({ text := some "", error := some e }, st)
      | some (.ok status) =>
        if status = "FAILED" then
          some
            ({ text := some ""
               error := some ("Transcription job failed: " ++
                 (o.failureReason.getD "Unknown error")) }, st)
        else
          match o.download with
          | .error e => some ({ text := some "", error := some e }, st)
          | .ok parsed =>
            -- `if not audio_key or not bucket_name:` — at this point both are
            -- set on the temporary-upload path, so the cleanup is skipped there.
            let st :=
              if !truthyStr key || !truthyStr bucket then
                if o.deleteAudioRaises then st
                else if o.deleteOutputRaises then { st with audioDeleted := true }
                else { st with audioDeleted := true, outputDeleted := true }
              else st
            let segs := (parsed.items.filter (·.isPronunciation)).map
              (fun it => { word := it.word, start_time := it.start_time,
                           end_time := it.end_time, confidence := some it.confidence : Chunk })
            some
              ({ text := some parsed.transcript
                 chunks := some segs
                 job_name := some "transcribe-job"
                 confidence := some
                   (if segs.isEmpty then 0
                    else ((segs.map (fun c => c.confidence.getD 0)).sum / (segs.length : ℚ))) },
               st)

/-! ## Engine factory (models/model_factory.py) -/

/-- The six engine classes `get_model` can construct. -/
inductive ModelKind where
  | dolphin
  | whisper
  | google
  | aws
  | salad
  | deepgram
  deriving DecidableEq, Repr

/-- The factory's `model_map`, in source order. -/
def model_map : List (String × ModelKind) :=
  [("dolphin", .dolphin), ("whisper", .whisper), ("google", .google),
   ("aws", .aws), ("salad", .salad), ("deepgram", .deepgram)]

/-- `model_factory.get_model`: construct (but do not load) the engine
class registered under `model_name`, or raise a `ValueError` listing the
valid names. -/
def get_model (model_name : String) : Except String ModelKind :=
  match model_map.lookup model_name with
  | some k => .ok k
  | none =>
    .error ("Unknown model: " ++ model_name ++
      ". Available models: dolphin, whisper, google, aws, salad, deepgram")

/-- A poll response that keeps the Salad status loop running: a `None`
status-check result (non-200) or a status string that is neither
terminal success (`succeeded`/`completed`) nor terminal failure
(`failed`/`error`). -/
def saladRespNonTerminal : Except String (Option SaladStatusJson) → Bool
  | .error _ => false
  | .ok none => true
  | .ok (some js) =>
    let s := (js.status.getD "").toLower
    !(s = "succeeded" || s = "completed" || s = "failed" || s = "error")

/-- Did the download + duration probe succeed for this item? -/
def fetchOk (it : ItemSpec) : Bool :=
  match it.fetch with
  | .ok _ => true
  | .error _ => false

/-- Placeholder item used as the out-of-range default of `List.getD`. -/
def dummyItem : ItemSpec :=
  { fileId := "", gt := none, fetch := .error (), tresult := {} }

/-- Stub results used in the concrete runs below: a successful
transcription, an engine-style error result (empty `text` plus `error`,
as every bundled engine produces), and a bare `{'error': ...}` dict with
no `text` key at all. -/
def okRes : TResult := { text := some "hello world" }

def errRes : TResult := { text := some "", error := some "boom" }

def errResNoText : TResult := { error := some "boom" }

/-- An item with ground truth `hello world`, duration 1, and the given
stubbed engine result. -/
def stubItem (n : String) (r : TResult) : ItemSpec :=
  { fileId := n, gt := some "hello world", fetch := .ok 1, tresult := r }

/-- Five items of which the third is stubbed to fail (engine-style
error result, `text` key present and empty). -/
def c1Items : List ItemSpec :=
  [stubItem "f1" okRes, stubItem "f2" okRes, stubItem "f3" errRes,
   stubItem "f4" okRes, stubItem "f5" okRes]

/-- The same five items, but the failing stub returns a bare
`{'error': 'boom'}` dict without a `text` key. -/
def c1ItemsNoText : List ItemSpec :=
  [stubItem "f1" okRes, stubItem "f2" okRes, stubItem "f3" errResNoText,
   stubItem "f4" okRes, stubItem "f5" okRes]

/-- Items for the duration-budget witness: durations 5, 7 and 4 against
a budget of 10 (the second item pushes the running sum to 12). -/
def budgetItem (n : String) (d : ℚ) : ItemSpec :=
  { fileId := n, gt := some "ref text", fetch := .ok d,
    tresult := { text := some "ref text" } }

def budgetItems : List ItemSpec := [budgetItem "a" 5, budgetItem "b" 7, budgetItem "c" 4]

/-- One successfully transcribed item whose ground truth is the empty
string (falsy). -/
def emptyGtItems : List ItemSpec :=
  [{ fileId := "g1", gt := some "", fetch := .ok 1, tresult := okRes }]

/-! ## Theorems -/

/-- C9: for every name in {dolphin, whisper, google, aws, salad,
deepgram}, `get_model` returns the corresponding engine class
(constructed but not loaded — construction in the model is pure and
`load` is a separate step); for every other name it raises a
`ValueError` whose message lists the valid names. -/
theorem c9_get_model_factory :
    get_model "dolphin" = .ok .dolphin ∧
    get_model "whisper" = .ok .whisper ∧
    get_model "google" = .ok .google ∧
    get_model "aws" = .ok .aws ∧
    get_model "salad" = .ok .salad ∧
    get_model "deepgram" = .ok .deepgram ∧
    ∀ name : String,
      name ∉ ["dolphin", "whisper", "google", "aws", "salad", "deepgram"] →
      get_model name = .error ("Unknown model: " ++ name ++
        ". Available models: dolphin, whisper, google, aws, salad, deepgram") := by
  refine ⟨rfl, rfl, rfl, rfl, rfl, rfl, fun name h => ?_⟩
  simp only [List.mem_cons, List.not_mem_nil, or_false, not_or] at h
  obtain ⟨h1, h2, h3, h4, h5, h6⟩ := h
  simp [get_model, model_map, List.lookup,
    beq_eq_false_iff_ne.mpr h1, beq_eq_false_iff_ne.mpr h2, beq_eq_false_iff_ne.mpr h3,
    beq_eq_false_iff_ne.mpr h4, beq_eq_false_iff_ne.mpr h5, beq_eq_false_iff_ne.mpr h6]

/-- Witness for C9: the unknown name "kaldi" is rejected with the
message listing the six valid names. -/
theorem c9_get_model_factory_witness :
    get_model "kaldi" = .error ("Unknown model: kaldi" ++
      ". Available models: dolphin, whisper, google, aws, salad, deepgram") :=
  c9_get_model_factory.2.2.2.2.2.2 "kaldi" (by decide)

/-- C3 counterexample: with both the engine's environment variable and an
explicit config `api_key` set, all three REST engines use the
environment value, not the config value — the claimed priority order
(config first) fails. -/
theorem c3_counterexample_env_beats_config :
    saladApiKey [("SALAD_API_KEY", "env-key")] (some "config-key") = some "env-key" ∧
    saladApiKey [("SALAD_API_KEY", "env-key")] (some "config-key") ≠ some "config-key" ∧
    deepgramApiKey [("DEEPGRAM_API_KEY", "env-key")] (some "config-key") = some "env-key" ∧
    deepgramApiKey [("DEEPGRAM_API_KEY", "env-key")] (some "config-key") ≠ some "config-key" ∧
    googleApiKey [("GOOGLE_API_KEY", "env-key")] (some "config-key") = some "env-key" ∧
    googleApiKey [("GOOGLE_API_KEY", "env-key")] (some "config-key") ≠ some "config-key" := by
  refine ⟨rfl, ?_, rfl, ?_, rfl, ?_⟩ <;> decide

/-- C3 (amended): each REST engine resolves its credential with the
environment variable first and the explicit config value only as the
fallback (`os.environ.get(VAR, config.get('api_key'))`); Google's
ambient gcloud token is consulted last, at transcribe time, and only
when the resolved key is falsy. -/
theorem c3_credential_priority (env : List (String × String)) (cfg : Option String)
    (v : String) :
    (env.lookup "SALAD_API_KEY" = some v → saladApiKey env cfg = some v) ∧
    (env.lookup "SALAD_API_KEY" = none → saladApiKey env cfg = cfg) ∧
    (env.lookup "DEEPGRAM_API_KEY" = some v → deepgramApiKey env cfg = some v) ∧
    (env.lookup "DEEPGRAM_API_KEY" = none → deepgramApiKey env cfg = cfg) ∧
    (env.lookup "GOOGLE_API_KEY" = some v → googleApiKey env cfg = some v) ∧
    (env.lookup "GOOGLE_API_KEY" = none → googleApiKey env cfg = cfg) ∧
    ∀ gcloud key : Option String,
      (truthyStr key = true → googleGetAccessToken key gcloud = key) ∧
      (truthyStr key = false → googleGetAccessToken key gcloud = gcloud) := by
  refine ⟨?_, ?_, ?_, ?_, ?_, ?_, fun gcloud key => ⟨?_, ?_⟩⟩ <;>
    intro h <;>
    simp [saladApiKey, deepgramApiKey, googleApiKey, os_environ_get,
      googleGetAccessToken, h]

/-- Witness for C3 (amended): concrete environments exercising the
env-set, env-unset and gcloud-fallback branches. -/
theorem c3_credential_priority_witness :
    saladApiKey [("SALAD_API_KEY", "k")] (some "c") = some "k" ∧
    saladApiKey [] (some "c") = some "c" ∧
    googleGetAccessToken none (some "gcloud-token") = some "gcloud-token" :=
  ⟨(c3_credential_priority [("SALAD_API_KEY", "k")] (some "c") "k").1 (by decide),
   (c3_credential_priority [] (some "c") "k").2.1 (by decide),
   ((c3_credential_priority [] none "k").2.2.2.2.2.2 (some "gcloud-token") none).2 (by decide)⟩

/-- C4 counterexample: with no API key and no gcloud authentication, the
Google engine's `load()` does not raise — it returns normally after
printing a warning — so "all mandatory credentials absent implies load()
raises" fails for Google. -/
theorem c4_counterexample_google_load_no_raise :
    googleLoad none false =
      .ok "WARNING: No Google API key provided and gcloud authentication not set up." := rfl

/-- C4 (amended): Salad and Deepgram fail fast — `load()` raises a
descriptive `ValueError` whenever the resolved API key is falsy — but
Google's `load()` never raises: it only prints a warning, and the
missing-credential failure is deferred to the first `transcribe` call,
which returns an error-field result. -/
theorem c4_load_fail_fast (key : Option String) :
    (truthyStr key = false →
      saladLoad key = .error
        "Salad API key is required. Set it in config or SALAD_API_KEY environment variable." ∧
      deepgramLoad key = .error
        "Deepgram API key is required. Set it in config or DEEPGRAM_API_KEY environment variable.") ∧
    (truthyStr key = true → saladLoad key = .ok () ∧ deepgramLoad key = .ok ()) ∧
    (∀ gcloud_ok : Bool, (googleLoad key gcloud_ok).isOk = true) ∧
    (∀ o : GoogleOracle, truthyStr key = false → o.gcloud_token = none →
      googleTranscribe key o = { error := some "Failed to get access token", text := some "" }) := by
  refine ⟨?_, ?_, ?_, ?_⟩
  · intro h
    simp [saladLoad, deepgramLoad, h]
  · intro h
    simp [saladLoad, deepgramLoad, h]
  · intro gcloud_ok
    simp only [googleLoad]
    split <;> rfl
  · intro o h hg
    simp [googleTranscribe, googleGetAccessToken, h, hg, pure, Except.pure]

/-- Witness for C4 (amended): all four branches exercised at concrete
inputs (no key / key present / google load / google transcribe
deferral). -/
theorem c4_load_fail_fast_witness :
    (saladLoad none).isOk = false ∧
    (deepgramLoad (some "key")).isOk = true ∧
    (googleLoad none false).isOk = true ∧
    googleTranscribe none { gcloud_token := none, fileRead := .ok (), post := .error "net" } =
      { error := some "Failed to get access token", text := some "" } := by
  refine ⟨?_, ?_, ?_, ?_⟩
  · rw [(c4_load_fail_fast none).1 (by decide) |>.1]
    rfl
  · rw [((c4_load_fail_fast (some "key")).2.1 (by decide)).2]
    rfl
  · exact (c4_load_fail_fast none).2.2.1 false
  · exact (c4_load_fail_fast none).2.2.2
      { gcloud_token := none, fileRead := .ok (), post := .error "net" } (by decide) rfl


/-! Lemmas about the tag scanner (C8). -/

/-- Structural characterisation of `firstGtSplit`. -/
theorem firstGtSplit_some : ∀ {cs : List Char} {b a : List Char},
    firstGtSplit cs = some (b, a) → cs = b ++ '>' :: a ∧ '>' ∉ b := by
  intro cs
  induction cs with
  | nil => intro b a h; simp [firstGtSplit] at h
  | cons c rest ih =>
    intro b a h
    simp only [firstGtSplit] at h
    by_cases hc : c = '>'
    · rw [if_pos hc] at h
      simp only [Option.some.injEq, Prod.mk.injEq] at h
      obtain ⟨rfl, rfl⟩ := h
      subst hc
      simp
    · rw [if_neg hc] at h
      cases hsp : firstGtSplit rest with
      | none => rw [hsp] at h; simp at h
      | some p =>
        obtain ⟨b', a'⟩ := p
        rw [hsp] at h
        simp only [Option.map_some', Option.some.injEq, Prod.mk.injEq] at h
        obtain ⟨rfl, rfl⟩ := h
        obtain ⟨he, hm⟩ := ih hsp
        refine ⟨by simp [he], ?_⟩
        simp [hm, Ne.symm hc]

/-- `firstGtSplit` returns `none` exactly on `'>'`-free input. -/
theorem firstGtSplit_none_iff {cs : List Char} :
    firstGtSplit cs = none ↔ '>' ∉ cs := by
  induction cs with
  | nil => simp [firstGtSplit]
  | cons c rest ih =>
    by_cases hc : c = '>'
    · subst hc; simp [firstGtSplit]
    · simp [firstGtSplit, hc, ih, Option.map_eq_none', Ne.symm hc]

/-- The tag scanner only deletes characters. -/
theorem removeTagsAux_sublist : ∀ (fuel : ℕ) (cs : List Char),
    (removeTagsAux fuel cs).Sublist cs := by
  intro fuel
  induction fuel with
  | zero => intro cs; simp [removeTagsAux]
  | succ fuel ih =>
    intro cs
    match cs with
    | [] => simp [removeTagsAux]
    | c :: rest =>
      by_cases hc : c = '<'
      · subst hc
        rw [removeTagsAux]
        simp only [if_pos rfl]
        cases hsp : firstGtSplit rest with
        | none => exact (ih rest).cons₂ '<'
        | some p =>
          obtain ⟨b, after⟩ := p
          cases b with
          | nil => exact (ih rest).cons₂ '<'
          | cons b0 bs =>
            obtain ⟨he, _⟩ := firstGtSplit_some hsp
            have hsuf : after.Sublist rest := by
              rw [he, show (b0 :: bs) ++ '>' :: after = ((b0 :: bs) ++ ['>']) ++ after by simp]
              exact List.sublist_append_right _ _
            exact ((ih after).trans hsuf).cons '<'
      · rw [removeTagsAux]
        simp only [if_neg hc]
        exact (ih rest).cons₂ c

/-- The scanner's output contains no complete `<[^>]+>` tag: a surviving
`'<'` is never followed by a usable `'>'`. -/
theorem hasTag_removeTagsAux : ∀ (fuel : ℕ) (cs : List Char),
    cs.length ≤ fuel → hasTag (removeTagsAux fuel cs) = false := by
  intro n
  induction n using Nat.strong_induction_on with
  | _ n ih =>
    intro cs hcs
    cases n with
    | zero =>
      have : cs = [] := List.length_eq_zero.mp (Nat.le_zero.mp hcs)
      subst this
      rfl
    | succ fuel =>
      cases cs with
      | nil => rfl
      | cons c rest =>
        have hrest : rest.length ≤ fuel := by
          simp only [List.length_cons] at hcs
          omega
        by_cases hc : c = '<'
        · subst hc
          rw [removeTagsAux, if_pos rfl]
          cases hsp : firstGtSplit rest with
          | none =>
            have hmem : '>' ∉ rest := firstGtSplit_none_iff.mp hsp
            have hmem2 : '>' ∉ removeTagsAux fuel rest :=
              fun hx => hmem ((removeTagsAux_sublist fuel rest).subset hx)
            rw [hasTag]
            simp [firstGtSplit_none_iff.mpr hmem2,
              ih fuel (Nat.lt_succ_self fuel) rest hrest]
          | some p =>
            obtain ⟨b, after⟩ := p
            cases b with
            | nil =>
              obtain ⟨he, _⟩ := firstGtSplit_some hsp
              simp only [List.nil_append] at he
              subst he
              cases fuel with
              | zero => simp at hrest
              | succ f =>
                have hafter : after.length ≤ f := by
                  simp only [List.length_cons] at hrest
                  omega
                rw [removeTagsAux, if_neg (by decide)]
                rw [hasTag]
                simp only [firstGtSplit, if_pos rfl]
                rw [hasTag]
                simp [ih f (by omega) after hafter]
            | cons b0 bs =>
              obtain ⟨he, _⟩ := firstGtSplit_some hsp
              have hafter : after.length ≤ fuel := by
                have : rest.length = (b0 :: bs).length + 1 + after.length := by
                  simp [he]; omega
                omega
              exact ih fuel (Nat.lt_succ_self fuel) after hafter
        · rw [removeTagsAux, if_neg hc]
          rw [hasTag]
          simp [hc, ih fuel (Nat.lt_succ_self fuel) rest hrest]

/-- C8 counterexample: Dolphin lower-cases the raw hypothesis before
storing and cleaning it, so for a raw output with an upper-case letter
the `text` field is not the tag-stripped raw hypothesis, and `raw_text`
is not the untouched raw output. -/
theorem c8_counterexample_dolphin_lowercases :
    (dolphinTranscribe ⟨.ok "<en>HELLO</en>"⟩).text = some "hello" ∧
    clean_hypothesis_text "<en>HELLO</en>" = "HELLO" ∧
    (dolphinTranscribe ⟨.ok "<en>HELLO</en>"⟩).text ≠
      some (clean_hypothesis_text "<en>HELLO</en>") ∧
    (dolphinTranscribe ⟨.ok "<en>HELLO</en>"⟩).raw_text ≠ some "<en>HELLO</en>" := by
  refine ⟨?_, ?_, ?_, ?_⟩ <;> with_unfolding_all decide

/-- C8 (amended): for every Dolphin result the `raw_text` field is the
lower-cased raw hypothesis with its tags intact, and the `text` field is
that same string with every `<...>` tag removed and surrounding
whitespace stripped; the tag-removal output never contains a `<...>`
tag. -/
theorem c8_dolphin_tag_stripping (raw : String) :
    (dolphinTranscribe ⟨.ok raw⟩).raw_text = some raw.toLower ∧
    (dolphinTranscribe ⟨.ok raw⟩).text = some ((removeTags raw.toLower).trim) ∧
    hasTag (removeTags raw.toLower).data = false := by
  refine ⟨rfl, rfl, ?_⟩
  exact hasTag_removeTagsAux _ _ le_rfl

/-- Witness for C8 (amended): a concrete tagged raw hypothesis. -/
theorem c8_dolphin_tag_stripping_witness :
    (dolphinTranscribe ⟨.ok "<en> the cat <asr>"⟩).raw_text = some "<en> the cat <asr>" ∧
    (dolphinTranscribe ⟨.ok "<en> the cat <asr>"⟩).text = some "the cat" ∧
    hasTag (removeTags "<en> the cat <asr>".toLower).data = false := by
  obtain ⟨h1, h2, h3⟩ := c8_dolphin_tag_stripping "<en> the cat <asr>"
  refine ⟨?_, ?_, h3⟩
  · rw [h1]; with_unfolding_all rfl
  · rw [h2]; with_unfolding_all rfl


/-! Per-engine lemmas for the transcribe error contract (C2). -/

theorem dolphin_err (o : DolphinOracle) :
    ((dolphinTranscribe o).error.isSome = true → (dolphinTranscribe o).text = some "") ∧
    (dolphinTranscribe o).text.isSome = true := by
  obtain ⟨run⟩ := o
  cases run <;> simp [dolphinTranscribe]

theorem whisper_err (o : WhisperOracle) :
    ((whisperTranscribe o).error.isSome = true → (whisperTranscribe o).text = some "") ∧
    (whisperTranscribe o).text.isSome = true := by
  obtain ⟨r⟩ := o
  cases r <;> simp [whisperTranscribe]

theorem deepgram_err (o : DeepgramOracle) :
    ((deepgramTranscribe o).error.isSome = true → (deepgramTranscribe o).text = some "") ∧
    (deepgramTranscribe o).text.isSome = true := by
  obtain ⟨fileRead, call⟩ := o
  cases fileRead <;> cases call <;>
    simp [deepgramTranscribe, Except.instMonad, Bind.bind, Except.bind, pure, Except.pure]

theorem google_err (key : Option String) (o : GoogleOracle) :
    ((googleTranscribe key o).error.isSome = true → (googleTranscribe key o).text = some "") ∧
    (googleTranscribe key o).text.isSome = true := by
  obtain ⟨gcloud, fileRead, post⟩ := o
  cases htok : googleGetAccessToken key gcloud with
  | none =>
    simp [googleTranscribe, htok, pure, Except.pure]
  | some tok =>
    cases fileRead with
    | error e => simp [googleTranscribe, htok, Except.instMonad, Bind.bind, Except.bind, pure, Except.pure]
    | ok u =>
      cases post with
      | error e => simp [googleTranscribe, htok, Except.instMonad, Bind.bind, Except.bind, pure, Except.pure]
      | ok resp =>
        by_cases hs : resp.status_code = 200 <;>
          simp [googleTranscribe, htok, Except.instMonad, Bind.bind, Except.bind, pure, Except.pure, hs]

theorem salad_err (o : SaladOracle) :
    ((saladTranscribe o).error.isSome = true → (saladTranscribe o).text = some "") ∧
    (saladTranscribe o).text.isSome = true := by
  obtain ⟨submit, polls⟩ := o
  cases submit with
  | error e => simp [saladTranscribe, Except.instMonad, Bind.bind, Except.bind, pure, Except.pure]
  | ok jr =>
    cases jr with
    | none => simp [saladTranscribe, Except.instMonad, Bind.bind, Except.bind, pure, Except.pure]
    | some j =>
      cases hid : j.id with
      | none => simp [saladTranscribe, hid, Except.instMonad, Bind.bind, Except.bind, pure, Except.pure]
      | some jid =>
        cases hp : saladPollLoop polls saladMaxRetries 0 with
        | error e => simp [saladTranscribe, hid, hp, Except.instMonad, Bind.bind, Except.bind, pure, Except.pure]
        | ok outcome =>
          cases outcome <;> simp [saladTranscribe, hid, hp, Except.instMonad, Bind.bind, Except.bind, pure, Except.pure]

theorem aws_after_err (bucket key : Option String) (st : AwsS3State) (o : AwsOracle)
    (r : TResult) (st' : AwsS3State)
    (h : awsTranscribe.awsAfterUpload bucket key st o = some (r, st')) :
    (r.error.isSome = true → r.text = some "") ∧ r.text.isSome = true := by
  cases hstart : o.startJob with
  | error e =>
    simp [awsTranscribe.awsAfterUpload, hstart] at h
    obtain ⟨rfl, rfl⟩ := h
    simp
  | ok u =>
    cases u
    cases hp : awsPollLoop o.polls with
    | none => simp [awsTranscribe.awsAfterUpload, hstart, hp] at h
    | some res =>
      cases res with
      | error e =>
        simp [awsTranscribe.awsAfterUpload, hstart, hp] at h
        obtain ⟨rfl, rfl⟩ := h
        simp
      | ok status =>
        by_cases hf : status = "FAILED"
        · simp [awsTranscribe.awsAfterUpload, hstart, hp, hf] at h
          obtain ⟨rfl, rfl⟩ := h
          simp
        · cases hdl : o.download with
          | error e =>
            simp [awsTranscribe.awsAfterUpload, hstart, hp, hf, hdl] at h
            obtain ⟨rfl, rfl⟩ := h
            simp
          | ok parsed =>
            simp [awsTranscribe.awsAfterUpload, hstart, hp, hf, hdl] at h
            obtain ⟨rfl, rfl⟩ := h
            simp

theorem aws_err (bucket_name audio_key : Option String) (o : AwsOracle)
    (r : TResult) (st : AwsS3State)
    (h : awsTranscribe bucket_name audio_key o = some (r, st)) :
    (r.error.isSome = true → r.text = some "") ∧ r.text.isSome = true := by
  cases hb : truthyStr bucket_name with
  | true =>
    rw [awsTranscribe] at h
    rw [hb] at h
    exact aws_after_err _ _ _ _ _ _ h
  | false =>
    rw [awsTranscribe] at h
    rw [hb] at h
    simp only [Bool.not_false, if_pos] at h
    cases hup : o.upload with
    | error e =>
      rw [hup] at h
      simp at h
      obtain ⟨rfl, rfl⟩ := h
      simp
    | ok u =>
      cases u
      rw [hup] at h
      exact aws_after_err _ _ _ _ _ _ h

/-- C2: for every engine variant and every oracle (hence every audio
path and every pattern of external failures), `transcribe` returns a
result dict — the models are total functions, mirroring the `try/except`
wrapper around each engine's whole body, and for AWS every terminating
call — the dict always has a `text` key, and whenever the `error` key is
present `text` is the empty string. -/
theorem c2_transcribe_never_raises :
    (∀ o : DolphinOracle,
      ((dolphinTranscribe o).error.isSome = true → (dolphinTranscribe o).text = some "") ∧
      (dolphinTranscribe o).text.isSome = true) ∧
    (∀ o : WhisperOracle,
      ((whisperTranscribe o).error.isSome = true → (whisperTranscribe o).text = some "") ∧
      (whisperTranscribe o).text.isSome = true) ∧
    (∀ o : DeepgramOracle,
      ((deepgramTranscribe o).error.isSome = true → (deepgramTranscribe o).text = some "") ∧
      (deepgramTranscribe o).text.isSome = true) ∧
    (∀ (key : Option String) (o : GoogleOracle),
      ((googleTranscribe key o).error.isSome = true → (googleTranscribe key o).text = some "") ∧
      (googleTranscribe key o).text.isSome = true) ∧
    (∀ o : SaladOracle,
      ((saladTranscribe o).error.isSome = true → (saladTranscribe o).text = some "") ∧
      (saladTranscribe o).text.isSome = true) ∧
    (∀ (bucket_name audio_key : Option String) (o : AwsOracle) (r : TResult) (st : AwsS3State),
      awsTranscribe bucket_name audio_key o = some (r, st) →
      (r.error.isSome = true → r.text = some "") ∧ r.text.isSome = true) :=
  ⟨dolphin_err, whisper_err, deepgram_err, google_err, salad_err, aws_err⟩

/-- Witness for C2: each engine on a concrete failing oracle returns an
error-field result with empty `text`. -/
theorem c2_transcribe_never_raises_witness :
    (dolphinTranscribe ⟨.error "boom"⟩).text = some "" ∧
    (whisperTranscribe ⟨.error "boom"⟩).text = some "" ∧
    (deepgramTranscribe ⟨.ok (), .error "boom"⟩).text = some "" ∧
    (googleTranscribe none ⟨none, .ok (), .error "boom"⟩).text = some "" ∧
    (saladTranscribe ⟨.error "boom", fun _ => .ok none⟩).text = some "" ∧
    ∃ r st, awsTranscribe none none
        { upload := .error "boom", startJob := .ok (),
          polls := [], download := .ok {} } = some (r, st) ∧ r.text = some "" := by
  refine ⟨?_, ?_, ?_, ?_, ?_, ?_⟩
  · exact (c2_transcribe_never_raises.1 ⟨.error "boom"⟩).1 rfl
  · exact (c2_transcribe_never_raises.2.1 ⟨.error "boom"⟩).1 rfl
  · exact (c2_transcribe_never_raises.2.2.1 ⟨.ok (), .error "boom"⟩).1 rfl
  · exact (c2_transcribe_never_raises.2.2.2.1 none ⟨none, .ok (), .error "boom"⟩).1 rfl
  · exact (c2_transcribe_never_raises.2.2.2.2.1 ⟨.error "boom", fun _ => .ok none⟩).1 rfl
  · refine ⟨_, _, rfl, ?_⟩
    exact (c2_transcribe_never_raises.2.2.2.2.2 none none
      { upload := .error "boom", startJob := .ok (), polls := [], download := .ok {} }
      _ _ rfl).1 rfl


/-! Polling-loop lemmas (C6). -/

/-- When every response in the first `fuel` attempts keeps the loop
running, the Salad polling loop exhausts its attempts and reports the
timeout. -/
theorem saladPollLoop_timeout (polls : ℕ → Except String (Option SaladStatusJson)) :
    ∀ (fuel i : ℕ), (∀ j, j < fuel → saladRespNonTerminal (polls (i + j)) = true) →
    saladPollLoop polls fuel i = .ok .timedOut := by
  intro fuel
  induction fuel with
  | zero => intro i _; rfl
  | succ fuel ih =>
    intro i h
    have h0 : saladRespNonTerminal (polls i) = true := by
      simpa using h 0 (Nat.succ_pos fuel)
    rw [saladPollLoop]
    cases hp : polls i with
    | error e => rw [hp] at h0; simp [saladRespNonTerminal] at h0
    | ok js =>
      cases js with
      | none =>
        exact ih (i + 1) (fun j hj => by
          have := h (j + 1) (by omega)
          simpa [Nat.add_assoc, Nat.add_comm 1 j] using this)
      | some js =>
        rw [hp] at h0
        simp only [saladRespNonTerminal, Bool.not_eq_true', Bool.or_eq_false_iff] at h0
        obtain ⟨⟨⟨h1, h2⟩, h3⟩, h4⟩ := h0
        have h1' : ¬((js.status.getD "").toLower = "succeeded") := by simpa using h1
        have h2' : ¬((js.status.getD "").toLower = "completed") := by simpa using h2
        have h3' : ¬((js.status.getD "").toLower = "failed") := by simpa using h3
        have h4' : ¬((js.status.getD "").toLower = "error") := by simpa using h4
        simp [h1', h2', h3', h4']
        exact ih (i + 1) (fun j hj => by
          have := h (j + 1) (by omega)
          simpa [Nat.add_assoc, Nat.add_comm 1 j] using this)

/-- The AWS `while True:` loop never leaves the polling state on
non-terminal responses, no matter how many there are: there is no
attempt ceiling. -/
theorem awsPollLoop_replicate_inprogress :
    ∀ n, awsPollLoop (List.replicate n (.ok "IN_PROGRESS")) = none := by
  intro n
  induction n with
  | zero => rfl
  | succ n ih =>
    rw [List.replicate_succ, awsPollLoop, if_neg (by decide)]
    exact ih

/-- C6 counterexample: the AWS polling loop has no maximum-attempt
bound — after 61 consecutive non-terminal responses (already beyond the
Salad engine's 60-attempt ceiling at the same 5-second interval) the
call is still polling and has returned no result at all, rather than a
timeout-error result. -/
theorem c6_counterexample_aws_polls_forever :
    awsTranscribe none none
      { upload := .ok (), startJob := .ok (),
        polls := List.replicate 61 (.ok "IN_PROGRESS"), download := .ok {} } = none := by
  with_unfolding_all decide

/-- C6 (amended): only the Salad polling loop is bounded — 60 attempts
at a fixed 5-second sleep, returning the `Job timed out` error result
when no terminal status is observed; the AWS loop polls indefinitely
until a terminal status and never times out. -/
theorem c6_poll_bound_salad_only :
    (∀ (polls : ℕ → Except String (Option SaladStatusJson)) (jr : SaladJobResp) (jid : String),
      jr.id = some jid →
      (∀ j, j < saladMaxRetries → saladRespNonTerminal (polls j) = true) →
      saladTranscribe ⟨.ok (some jr), polls⟩ =
        { text := some "", error := some "Job timed out" }) ∧
    (∀ n, awsPollLoop (List.replicate n (.ok "IN_PROGRESS")) = none) := by
  refine ⟨fun polls jr jid hid hnt => ?_, awsPollLoop_replicate_inprogress⟩
  have hloop : saladPollLoop polls saladMaxRetries 0 = .ok .timedOut :=
    saladPollLoop_timeout polls saladMaxRetries 0 (fun j hj => by simpa using hnt j hj)
  simp [saladTranscribe, hid, hloop, Except.instMonad, Bind.bind, Except.bind, pure, Except.pure]

/-- Witness for C6 (amended): a Salad oracle answering `running` forever
times out after the 60 attempts. -/
theorem c6_poll_bound_salad_only_witness :
    saladTranscribe
      ⟨.ok (some { id := some "job-1" }), fun _ => .ok (some { status := some "running" })⟩ =
      { text := some "", error := some "Job timed out" } :=
  c6_poll_bound_salad_only.1 (fun _ => .ok (some { status := some "running" }))
    { id := some "job-1" } "job-1" rfl
    (fun j hj => by
      show saladRespNonTerminal (.ok (some { status := some "running" })) = true
      with_unfolding_all decide)

/-- C7: the AWS cleanup is keyed on `if not audio_key or not bucket_name:`,
which is false precisely on the temporary-upload path (the upload sets
both), so a call without a caller-provided S3 location deletes neither
the uploaded audio object nor the transcript output object — on the
success path (first conjunct: no `error`, object uploaded, nothing
deleted) and on the failure path alike (second conjunct). -/
theorem c7_aws_orphaned_temp_upload :
    ((awsTranscribe none none
        { upload := .ok (), startJob := .ok (), polls := [.ok "COMPLETED"],
          download := .ok { transcript := "hello" } }).map
      (fun p => (p.1.error, p.2))) =
      some (none, { audioUploaded := true, audioDeleted := false, outputDeleted := false }) ∧
    ((awsTranscribe none none
        { upload := .ok (), startJob := .ok (), polls := [.ok "FAILED"],
          download := .ok {} }).map
      (fun p => (p.1.error.isSome, p.2))) =
      some (true, { audioUploaded := true, audioDeleted := false, outputDeleted := false }) := by
  constructor <;> with_unfolding_all decide


/-! Lemmas for the duration-budget contract (C5). -/

/-- An item's effective duration is nonnegative when probed durations
are. -/
theorem effDuration_nonneg (it : ItemSpec) (h : ∀ d : ℚ, it.fetch = .ok d → 0 ≤ d) :
    0 ≤ effDuration it := by
  unfold effDuration
  cases hgt : it.gt <;> cases hf : it.fetch <;> simp
  exact h _ hf

/-- Sums of effective durations are nonnegative. -/
theorem effDuration_sum_nonneg (items : List ItemSpec)
    (h : ∀ it ∈ items, ∀ d : ℚ, it.fetch = .ok d → 0 ≤ d) :
    0 ≤ (items.map effDuration).sum := by
  apply List.sum_nonneg
  intro x hx
  obtain ⟨it, hit, rfl⟩ := List.mem_map.mp hx
  exact effDuration_nonneg it (h it hit)

/-- Characterisation of the per-item loop: starting from accumulated
duration `acc`, item `i` is transcribed exactly when the accumulated
duration of the items before it stays below the budget, it has a ground
truth, and its download/probe succeeded. -/
theorem runItems_transcribed_iff (budget : ℚ) :
    ∀ (items : List ItemSpec) (acc : ℚ),
      (∀ it ∈ items, ∀ d : ℚ, it.fetch = .ok d → 0 ≤ d) →
      ∀ i, i < items.length →
      (((runItems budget acc items).1.getD i {}).transcribed = true ↔
        (acc + ((items.take i).map effDuration).sum < budget ∧
         (items.getD i dummyItem).gt.isSome = true ∧
         fetchOk (items.getD i dummyItem) = true)) := by
  intro items
  induction items with
  | nil => intro acc _ i hi; simp at hi
  | cons it rest ih =>
    intro acc hnn i hi
    have hnn_it : ∀ d : ℚ, it.fetch = .ok d → 0 ≤ d := hnn it (by simp)
    have hnn_rest : ∀ x ∈ rest, ∀ d : ℚ, x.fetch = .ok d → 0 ≤ d :=
      fun x hx => hnn x (by simp [hx])
    by_cases hb : budget ≤ acc
    · rw [runItems]
      rw [if_pos hb]
      have hget : (List.replicate (rest.length + 1) ({} : ItemRec)).getD i {} = {} := by
        simp only [List.getD_eq_getElem?_getD, List.getElem?_replicate]
        split <;> rfl
      rw [hget]
      have hsum : 0 ≤ (((it :: rest).take i).map effDuration).sum :=
        effDuration_sum_nonneg _ (fun x hx => hnn x (List.mem_of_mem_take hx))
      constructor
      · intro hfalse; simp at hfalse
      · intro ⟨hlt, _⟩
        exfalso
        have : acc < budget := by linarith
        linarith
    · rw [runItems, if_neg hb]
      cases i with
      | zero =>
        simp only [List.take_zero, List.map_nil, List.sum_nil, add_zero, List.getD_cons_zero]
        have hacc : acc < budget := lt_of_not_le hb
        cases hgt : it.gt with
        | none => simp [hgt, fetchOk]
        | some g =>
          cases hf : it.fetch with
          | error e => simp [hgt, hf, fetchOk]
          | ok d =>
            cases hsv : save_result it.fileId it.tresult (some g) with
            | error e => simp [hgt, hf, hsv, fetchOk, hacc]
            | ok pr => simp [hgt, hf, hsv, fetchOk, hacc]
      | succ i =>
        have hi' : i < rest.length := by simpa using hi
        simp only [List.take_succ_cons, List.map_cons, List.sum_cons, List.getD_cons_succ]
        cases hgt : it.gt with
        | none =>
          have heff : effDuration it = 0 := by unfold effDuration; rw [hgt]
          rw [heff]
          have := ih acc hnn_rest i hi'
          simpa using this
        | some g =>
          cases hf : it.fetch with
          | error e =>
            have heff : effDuration it = 0 := by unfold effDuration; rw [hgt, hf]
            rw [heff]
            have := ih acc hnn_rest i hi'
            simpa using this
          | ok d =>
            have heff : effDuration it = d := by unfold effDuration; rw [hgt, hf]
            rw [heff]
            cases hsv : save_result it.fileId it.tresult (some g) with
            | error e =>
              have := ih (acc + d) hnn_rest i hi'
              simpa [hsv, add_assoc] using this
            | ok pr =>
              have := ih (acc + d) hnn_rest i hi'
              simpa [hsv, add_assoc] using this

/-- Prefix sums never exceed the full sum of a nonnegative list. -/
theorem sum_take_le_sum (L : List ℚ) (hL : ∀ x ∈ L, 0 ≤ x) (i : ℕ) :
    (L.take i).sum ≤ L.sum := by
  conv_rhs => rw [← List.take_append_drop i L]
  rw [List.sum_append]
  have : 0 ≤ (L.drop i).sum :=
    List.sum_nonneg (fun x hx => hL x (List.mem_of_mem_drop hx))
  linarith

/-- C5: with nonnegative durations, the runner transcribes item `i`
exactly when the accumulated duration of the previously processed items
is strictly below the budget `D` (and the item has a ground truth and a
successful download) — so the item that pushes the sum over the budget
is itself completed — and once a prefix's accumulated duration reaches
`D`, no later item is ever transcribed. -/
theorem c5_duration_budget (budget : ℚ) (items : List ItemSpec)
    (hnn : ∀ it ∈ items, ∀ d : ℚ, it.fetch = .ok d → 0 ≤ d) :
    (∀ i, i < items.length →
      (((runItems budget 0 items).1.getD i {}).transcribed = true ↔
        (((items.take i).map effDuration).sum < budget ∧
         (items.getD i dummyItem).gt.isSome = true ∧
         fetchOk (items.getD i dummyItem) = true))) ∧
    (∀ i j, i ≤ j → j < items.length →
      budget ≤ ((items.take i).map effDuration).sum →
      ((runItems budget 0 items).1.getD j {}).transcribed = false) := by
  have hmain := runItems_transcribed_iff budget items 0 hnn
  constructor
  · intro i hi
    have := hmain i hi
    simpa using this
  · intro i j hij hj hbud
    have hiff := hmain j hj
    rw [zero_add] at hiff
    have hmono : ((items.take i).map effDuration).sum ≤
        ((items.take j).map effDuration).sum := by
      have hsub : (items.take i).map effDuration =
          ((items.take j).map effDuration).take i := by
        rw [← List.map_take, List.take_take, Nat.min_eq_left hij]
      rw [hsub]
      apply sum_take_le_sum
      intro x hx
      obtain ⟨it, hit, rfl⟩ := List.mem_map.mp hx
      exact effDuration_nonneg it (hnn it (List.mem_of_mem_take hit))
    cases hc : ((runItems budget 0 items).1.getD j {}).transcribed with
    | false => rfl
    | true =>
      obtain ⟨hlt, -, -⟩ := hiff.mp hc
      linarith

/-- Witness for C5: with durations 5, 7, 4 and budget 10, item 1 (which
pushes the sum to 12) is still transcribed, and item 2 is never
started. -/
theorem c5_duration_budget_witness :
    ((runItems 10 0 budgetItems).1.getD 1 {}).transcribed = true ∧
    ((runItems 10 0 budgetItems).1.getD 2 {}).transcribed = false := by
  have hnn : ∀ it ∈ budgetItems, ∀ d : ℚ, it.fetch = .ok d → 0 ≤ d := by
    intro it hit d hd
    simp [budgetItems, budgetItem] at hit
    rcases hit with rfl | rfl | rfl <;>
      (simp only [Except.ok.injEq] at hd; rw [← hd]) <;> norm_num
  constructor
  · exact ((c5_duration_budget 10 budgetItems hnn).1 1 (by decide)).mpr
      ⟨by with_unfolding_all decide, by with_unfolding_all decide,
       by with_unfolding_all decide⟩
  · exact (c5_duration_budget 10 budgetItems hnn).2 2 2 le_rfl (by decide)
      (by with_unfolding_all decide)


/-! Lemmas about metric computation in save_result (C1, C10). -/

/-- `save_result` never consults the `error` key: with a truthy,
scoreable ground truth and a `text` key present, WER/CER are computed
and recorded whatever `error` holds, and the CSV row carries the (here
possibly empty) hypothesis. -/
theorem save_result_error_ignored (fid : String) (res : TResult) (gt : String)
    (hgt : truthyStr (some gt) = true)
    (hw : (wordsOf gt.toLower).isEmpty = false)
    (hc : (gt.toLower.trim.data).isEmpty = false)
    (htext : res.text.isSome = true) :
    ∃ js row, save_result fid res (some gt) = .ok (js, row) ∧
      js.wer.isSome = true ∧ js.cer.isSome = true ∧
      js.error = res.error ∧ row.hypothesis = res.text.getD "" ∧
      row.ground_truth = gt := by
  obtain ⟨w, hww⟩ : ∃ w, jiwerWer gt.toLower ((res.text.getD "").toLower) = .ok w := by
    cases hj : jiwerWer gt.toLower ((res.text.getD "").toLower) with
    | ok w => exact ⟨w, rfl⟩
    | error e =>
      rw [jiwerWer] at hj
      simp [hw] at hj
  obtain ⟨c, hcc⟩ : ∃ c, jiwerCer gt.toLower ((res.text.getD "").toLower) = .ok c := by
    cases hj : jiwerCer gt.toLower ((res.text.getD "").toLower) with
    | ok c => exact ⟨c, rfl⟩
    | error e =>
      rw [jiwerCer] at hj
      simp only [String.toList] at hj
      simp [hc] at hj
  refine ⟨{ res with ground_truth := some gt, wer := some w, cer := some c },
    { file_id := fid, ground_truth := gt, hypothesis := res.text.getD "",
      wer := some w, cer := some c,
      confidence := if res.confidence.isSome then res.confidence else none },
    ?_, rfl, rfl, rfl, rfl, rfl⟩
  simp [save_result, hgt, htext, hww, hcc,
    Except.instMonad, Bind.bind, Except.bind, pure, Except.pure]

/-- With a falsy ground truth (`None` or `""`), `save_result` computes
nothing: the JSON record is the untouched result dict and the CSV row
has an empty `ground_truth` cell. -/
theorem save_result_no_gt (fid : String) (res : TResult) (gt : Option String)
    (hgt : truthyStr gt = false) :
    save_result fid res gt = .ok (res,
      { file_id := fid, ground_truth := "", hypothesis := res.text.getD "",
        wer := res.wer, cer := res.cer,
        confidence := if res.confidence.isSome then res.confidence else none }) := by
  simp [save_result, hgt, Except.instMonad, Bind.bind, Except.bind, pure, Except.pure]

/-- C1 counterexample: an engine stubbed to fail on one item out of five
in the way every bundled engine fails (`{'text': '', 'error': 'boom'}`)
yields `num_files = 5`, not the claimed 4 — the errored item is scored
(against the empty hypothesis) and counted. -/
theorem c1_counterexample_error_item_counted :
    (process_dataset 36000 c1Items).1.num_files = 5 ∧
    (process_dataset 36000 c1Items).1.num_files ≠ 4 := by
  constructor <;> with_unfolding_all decide

/-- C1 (amended): metric computation keys on ground-truth truthiness and
the presence of the `text` key, never on `error`: an errored result that
still has a `text` key (as all bundled engines produce) gets wer/cer
computed against its empty hypothesis and is counted in the aggregates —
the five-item stub run yields `num_files = 5` with the failed item
recorded in JSON (`error` kept, `wer` present) and CSV (empty
hypothesis) — whereas only a result lacking the `text` key altogether is
excluded, in which case the run yields `num_files = 4` and the failed
item is still recorded with an empty hypothesis. -/
theorem c1_error_items_still_scored :
    (∀ (fid : String) (res : TResult) (gt : String),
      truthyStr (some gt) = true →
      (wordsOf gt.toLower).isEmpty = false →
      (gt.toLower.trim.data).isEmpty = false →
      res.text.isSome = true →
      ∃ js row, save_result fid res (some gt) = .ok (js, row) ∧
        js.wer.isSome = true ∧ js.cer.isSome = true ∧
        js.error = res.error ∧ row.hypothesis = res.text.getD "" ∧
        row.ground_truth = gt) ∧
    (process_dataset 36000 c1Items).1.num_files = 5 ∧
    (((process_dataset 36000 c1Items).2.getD 2 {}).json.map (·.error)) = some (some "boom") ∧
    (((process_dataset 36000 c1Items).2.getD 2 {}).json.map (·.wer.isSome)) = some true ∧
    (((process_dataset 36000 c1Items).2.getD 2 {}).csv.map (·.hypothesis)) = some "" ∧
    (process_dataset 36000 c1ItemsNoText).1.num_files = 4 ∧
    (((process_dataset 36000 c1ItemsNoText).2.getD 2 {}).json.map (·.wer.isSome)) = some false ∧
    (((process_dataset 36000 c1ItemsNoText).2.getD 2 {}).csv.map (·.hypothesis)) = some "" := by
  refine ⟨save_result_error_ignored, ?_, ?_, ?_, ?_, ?_, ?_, ?_⟩ <;> with_unfolding_all decide

/-- Witness for C1 (amended): the stubbed error result with ground truth
`hello world` gets metrics and keeps its error field. -/
theorem c1_error_items_still_scored_witness :
    ∃ js row, save_result "f3" errRes (some "hello world") = .ok (js, row) ∧
      js.wer.isSome = true ∧ js.cer.isSome = true ∧
      js.error = errRes.error ∧ row.hypothesis = errRes.text.getD "" ∧
      row.ground_truth = "hello world" :=
  c1_error_items_still_scored.1 "f3" errRes "hello world"
    (by with_unfolding_all decide) (by with_unfolding_all decide)
    (by with_unfolding_all decide) (by with_unfolding_all decide)

/-- C10: a falsy (absent or empty) ground truth means `save_result`
computes no wer/cer even for a successful non-empty transcription — the
JSON record is the untouched result dict and the CSV row has an empty
`ground_truth` cell — and, lacking `wer`/`cer` keys, the item is
silently excluded from `num_files` and the averages. -/
theorem c10_missing_ground_truth_excluded :
    (∀ (fid : String) (res : TResult) (gt : Option String),
      truthyStr gt = false →
      save_result fid res gt = .ok (res,
        { file_id := fid, ground_truth := "", hypothesis := res.text.getD "",
          wer := res.wer, cer := res.cer,
          confidence := if res.confidence.isSome then res.confidence else none })) ∧
    (process_dataset 36000 emptyGtItems).1.num_files = 0 ∧
    ((process_dataset 36000 emptyGtItems).2.getD 0 {}).transcribed = true ∧
    ((process_dataset 36000 emptyGtItems).2.getD 0 {}).json = some okRes ∧
    (((process_dataset 36000 emptyGtItems).2.getD 0 {}).csv.map (·.ground_truth)) = some "" ∧
    ((process_dataset 36000 emptyGtItems).2.getD 0 {}).metric = none := by
  refine ⟨save_result_no_gt, ?_, ?_, ?_, ?_, ?_⟩ <;> with_unfolding_all decide

/-- Witness for C10: a successful non-empty transcription with an absent
ground truth is written out without metrics. -/
theorem c10_missing_ground_truth_excluded_witness :
    save_result "x" okRes none = .ok (okRes,
      { file_id := "x", ground_truth := "", hypothesis := "hello world" }) := by
  rw [c10_missing_ground_truth_excluded.1 "x" okRes none rfl]
  with_unfolding_all rfl
